import Mathlib

/-!
Shallow embedding of the ShopSense image-editing workspace (TypeScript/React).

The embedding covers the parts of the program the verified properties are
about: the linear undo/redo edit-history store and its mutators
(`updateStateAndHistory`, `updateStateWithNewImage`, `handleUndo`,
`handleRedo` from `src/App.tsx`), the generation orchestration
(`handleGenerate` from `src/App.tsx`), the generation client
(`generateProductPlacement`, `fileToGenerativePart`,
`dataUrlToGenerativePart` from the Gemini service module), and the URL
image import (`handleFetchFromUrl` from `src/components/LeftAside.tsx`).

Modelling conventions:
- A JS `File` is a record of its name, MIME type and contents; the
  `data` field stands for the base64 encoding of the contents (which is
  what `fileToBase64` produces via `FileReader.readAsDataURL`).
- `null`/`undefined` become `Option`; JS truthiness of a string value
  (`if (s)`) is `s` present and nonempty.
- The React `useState` cells that the claims mention (`history`,
  `currentHistoryIndex`, `prompt`, `isLoading`, `error`) form `AppState`;
  presentation-only cells (`mobilePanel`, `mobileOnboardingStep`,
  `highlightTools`, `cameraFor`) are omitted, as no verified property
  mentions them.
- The history index is an `Int`, because the JS index is a plain number
  and `handleRedo` can drive it to `-1` (see the redo theorems below).
- `history.slice(0, e)` is `jsSliceTo`, matching the JS `Array.slice`
  clamping rules for its end argument.
- External effects (the remote generation call, `fetch`) are passed in
  as explicit outcome values; the functions return, alongside the new
  state, a record of the outbound request (or `none` when the external
  collaborator was never invoked).
-/

set_option autoImplicit false
set_option linter.unusedVariables false

namespace ShopSense

/-- A JS `File`: name, MIME type, and contents (`data` stands for the
base64 encoding of the bytes). -/
structure File where
  name : String
  type : String
  data : String
deriving DecidableEq

/-- One entry of the edit history (`HistoryState` in `src/App.tsx`). -/
structure HistoryState where
  imageUrl : Option String
  prompt : String
  sceneImage : Option File
  productImage : Option File
deriving DecidableEq

/-- The initial, empty history entry (`src/App.tsx` lines 18-23). -/
def emptySnapshot : HistoryState :=
  { imageUrl := none, prompt := "", sceneImage := none, productImage := none }

/-- The `useState` cells of `App` that the verified properties mention. -/
structure AppState where
  history : List HistoryState
  currentHistoryIndex : Int
  prompt : String
  isLoading : Bool
  error : Option String
deriving DecidableEq

/-- The state `App` starts from: a single empty snapshot at index 0. -/
def initialAppState : AppState :=
  { history := [emptySnapshot], currentHistoryIndex := 0, prompt := "",
    isLoading := false, error := none }

/-- JS truthiness of an optional string: present and nonempty. -/
def truthyStr : Option String → Bool
  | none => false
  | some s => s != ""

/-!
JS string primitives, implemented over the character list so that the
kernel can evaluate them (several of the core `String` operations use
well-founded recursion and do not reduce definitionally). Semantics
follow ECMAScript, which is what the source runs under.
-/

/-- The JS `WhiteSpace` and `LineTerminator` characters that
`String.prototype.trim` removes. -/
def jsWhitespace (c : Char) : Bool :=
  c == ' ' || c == '\t' || c == '\n' || c == '\r' ||
  c == Char.ofNat 0x0B || c == Char.ofNat 0x0C || c == Char.ofNat 0xA0 ||
  c == Char.ofNat 0xFEFF || c == Char.ofNat 0x1680 ||
  (0x2000 ≤ c.toNat && c.toNat ≤ 0x200A) ||
  c == Char.ofNat 0x2028 || c == Char.ofNat 0x2029 ||
  c == Char.ofNat 0x202F || c == Char.ofNat 0x205F || c == Char.ofNat 0x3000

/-- JS `s.trim()`: strip leading and trailing JS whitespace. -/
def jsTrim (s : String) : String :=
  String.mk (((s.data.dropWhile jsWhitespace).reverse.dropWhile jsWhitespace).reverse)

/-- Split a character list at the FIRST occurrence of a (nonempty)
separator, returning the part before and the part after. -/
def splitAtFirstSep (sep : List Char) : List Char → Option (List Char × List Char)
  | [] => none
  | c :: cs =>
    if sep.isPrefixOf (c :: cs) then some ([], (c :: cs).drop sep.length)
    else
      match splitAtFirstSep sep cs with
      | some (pre, post) => some (c :: pre, post)
      | none => none

/-- Split a character list at the LAST occurrence of a (nonempty)
separator; this is where a greedy `(.*)sep(.*)` regex match splits. -/
def splitAtLastSep (sep : List Char) : List Char → Option (List Char × List Char)
  | [] => none
  | c :: cs =>
    match splitAtLastSep sep cs with
    | some (pre, post) => some (c :: pre, post)
    | none =>
      if sep.isPrefixOf (c :: cs) then some ([], (c :: cs).drop sep.length)
      else none

/-- JS `s.split(sep)` for a single-character separator (the only kind
the source uses): every occurrence splits, empty pieces are kept. -/
def splitOnChar (sep : Char) : List Char → List (List Char)
  | [] => [[]]
  | c :: cs =>
    let r := splitOnChar sep cs
    if c = sep then [] :: r
    else
      match r with
      | h :: t => (c :: h) :: t
      | [] => [[c]]

/-- `history[currentHistoryIndex]` (`src/App.tsx` line 37). The default
is never hit at a valid index. -/
def currentStateOf (s : AppState) : HistoryState :=
  s.history.getD s.currentHistoryIndex.toNat emptySnapshot

/-- JS `Array.slice(0, e)`: a negative end counts from the end of the
array; the result is clamped to the array. -/
def jsSliceTo {α : Type} (l : List α) (e : Int) : List α :=
  if e < 0 then l.take ((l.length : Int) + e).toNat else l.take e.toNat

/-- A `Partial<HistoryState>` object: each present field overrides the
spread base in `{ ...currentState, ...newState }`. -/
structure HistoryStatePatch where
  imageUrl? : Option (Option String) := none
  prompt? : Option String := none
  sceneImage? : Option (Option File) := none
  productImage? : Option (Option File) := none
deriving DecidableEq

/-- JS object spread `{ ...base, ...patch }` for `HistoryState`. -/
def applyPatch (base : HistoryState) (p : HistoryStatePatch) : HistoryState :=
  { imageUrl := p.imageUrl?.getD base.imageUrl,
    prompt := p.prompt?.getD base.prompt,
    sceneImage := p.sceneImage?.getD base.sceneImage,
    productImage := p.productImage?.getD base.productImage }

/-- `updateStateAndHistory` (`src/App.tsx` lines 39-45): spread the
current entry with the patch, force `prompt := action`, truncate the
history after the current index, push, and move the index to the new
last element. -/
def updateStateAndHistory (s : AppState) (patch : HistoryStatePatch)
    (action : String) : AppState :=
  let currentState := currentStateOf s
  let newHistoryState := { applyPatch currentState patch with prompt := action }
  let newHistory := jsSliceTo s.history (s.currentHistoryIndex + 1) ++ [newHistoryState]
  { s with history := newHistory,
           currentHistoryIndex := (newHistory.length : Int) - 1 }

/-- Which slot an acquired image goes to. -/
inductive ImageType where
  | scene
  | product
deriving DecidableEq

/-- The entry `updateStateWithNewImage` builds: the new file stored in
its slot, `imageUrl` kept from the current entry, `prompt := action`. -/
def newImageSnapshot (currentState : HistoryState) (file : File)
    (imageType : ImageType) (action : String) : HistoryState :=
  { imageUrl := currentState.imageUrl,
    sceneImage := if imageType = ImageType.scene then some file else currentState.sceneImage,
    productImage := if imageType = ImageType.product then some file else currentState.productImage,
    prompt := action }

/-- `updateStateWithNewImage` (`src/App.tsx` lines 47-69): store the new
file in its slot, keep `imageUrl`; if the current entry has neither a
scene nor a product image, replace the whole history with the single new
entry, otherwise truncate-and-push as `updateStateAndHistory` does. The
mobile-onboarding side effect at the end is presentation-only and not
part of the state model. -/
def updateStateWithNewImage (s : AppState) (file : File)
    (imageType : ImageType) (action : String) : AppState :=
  let currentState := currentStateOf s
  let newHistoryState : HistoryState :=
    newImageSnapshot currentState file imageType action
  if currentState.sceneImage.isNone && currentState.productImage.isNone then
    { s with history := [newHistoryState], currentHistoryIndex := 0 }
  else
    let newHistory := jsSliceTo s.history (s.currentHistoryIndex + 1) ++ [newHistoryState]
    { s with history := newHistory,
             currentHistoryIndex := (newHistory.length : Int) - 1 }

/-- `handleUndo` (`src/App.tsx` lines 173-177). -/
def handleUndo (s : AppState) : AppState :=
  if s.currentHistoryIndex > 0 then
    { s with currentHistoryIndex := s.currentHistoryIndex - 1 }
  else s

/-- `handleRedo` (`src/App.tsx` lines 179-183), exactly as written: the
guarded branch sets the index to `currentHistoryIndex - 1` (the source
decrements, it does not increment). -/
def handleRedo (s : AppState) : AppState :=
  if s.currentHistoryIndex < (s.history.length : Int) - 1 then
    { s with currentHistoryIndex := s.currentHistoryIndex - 1 }
  else s

/-- A history operation, for quantifying over operation sequences. -/
inductive HistOp where
  | append (patch : HistoryStatePatch) (action : String)
  | newImage (file : File) (imageType : ImageType) (action : String)
  | undo
  | redo

/-- Apply one history operation to the app state. -/
def applyHistOp (s : AppState) (op : HistOp) : AppState :=
  match op with
  | .append p a => updateStateAndHistory s p a
  | .newImage f t a => updateStateWithNewImage s f t a
  | .undo => handleUndo s
  | .redo => handleRedo s

/-- Run a sequence of history operations from the initial state. -/
def runOps (ops : List HistOp) : AppState :=
  ops.foldl applyHistOp initialAppState

/-! ## Generation client (the Gemini service module) -/

/-- A request part sent to the provider (`Part` of `@google/genai`):
either an inline base64 payload with a MIME type, or text. -/
inductive Part where
  | inlineData (data : String) (mimeType : String)
  | text (t : String)
deriving DecidableEq

/-- `fileToGenerativePart`: the file's base64 contents plus its MIME
type (`fileToBase64` composed with the `inlineData` wrapper). -/
def fileToGenerativePart (f : File) : Part :=
  Part.inlineData f.data f.type

/-- Characters on which the JS regex metacharacter `.` fails to match
(`.` matches any character except line terminators). -/
def jsDotFails (c : Char) : Bool :=
  c == '\n' || c == '\r' || c == Char.ofNat 0x2028 || c == Char.ofNat 0x2029

/-- `dataUrlToGenerativePart`: matches the data URL against
`^data:(.*);base64,(.*)$` (greedy, so the MIME group runs to the LAST
occurrence of `;base64,`; `.` matches no line terminator) and wraps the
two groups in an `inlineData` part; `none` models the thrown
`"Invalid data URL format"` error. -/
def dataUrlToGenerativePart (dataUrl : String) : Option Part :=
  let cs := dataUrl.data
  if cs.any jsDotFails then none
  else if ("data:".data).isPrefixOf cs then
    match splitAtLastSep (";base64,".data) (cs.drop 5) with
    | some (mime, data) => some (Part.inlineData (String.mk data) (String.mk mime))
    | none => none
  else none

/-- The fixed system-instruction template with the user prompt
interpolated (the `instructionText` template literal of the service). -/
def instructionText (prompt : String) : String :=
  "Your task is to act as a photorealistic image editor. You will be given a base image and a text instruction. You might also be given a second 'product' image.\n\n**Instructions:**\n1.  **Analyze the Base Image:** The first image is your canvas. If it already contains a placed product from a previous step, you will be editing this composite image.\n2.  **Handle the Product Image (if provided):** If a second image is given, your primary task is to isolate the main product from it (e.g., a shirt, a sofa). You must **completely disregard the background or any models** in the product image. Then, seamlessly place this isolated product into the base image according to the user's prompt.\n3.  **Execute the User's Prompt:** Apply the user's text instruction to the image. This instruction is the most important part. It could be about initial placement, moving an object, changing colors, applying a stylistic look (e.g., 'Golden Hour'), or any other edit. The prompt is: \"" ++ prompt ++ "\".\n4.  **Maintain Realism:** All edits must result in a photorealistic image. Ensure lighting, shadows, perspective, and scale are believable and consistent. The final product should look like a real photograph.\n\nOutput only the final, edited image."

/-- The ordered parts of the outbound request: the base, the product
when present, then the instruction text (service lines 63-67). -/
def buildParts (scenePart : Part) (productPart : Option Part)
    (prompt : String) : List Part :=
  let withProduct :=
    match productPart with
    | some p => [scenePart, p]
    | none => [scenePart]
  withProduct ++ [Part.text (instructionText prompt)]

/-- An inline payload of a provider response part. -/
structure InlineData where
  data : String
  mimeType : String
deriving DecidableEq

/-- One part of the provider's response: optionally an inline payload,
optionally text. -/
structure RespPart where
  inlineData : Option InlineData := none
  text : Option String := none
deriving DecidableEq

/-- The scan loop of the service (lines 77-82): the first response part
whose inline payload carries an `image/...` MIME type; parts with a
non-image payload are skipped, as in the source. -/
def findImagePart : List RespPart → Option InlineData
  | [] => none
  | p :: rest =>
    match p.inlineData with
    | some d =>
      if ("image/".data).isPrefixOf d.mimeType.data then some d
      else findImagePart rest
    | none => findImagePart rest

/-- The SDK accessor `response.text`: the concatenated text parts of the
first candidate, or `undefined` when there is no text part. -/
def responseText (parts : List RespPart) : Option String :=
  let ts := parts.filterMap (fun p => p.text)
  if ts.isEmpty then none else some (String.mk (ts.map String.data).flatten)

/-- Outcome of one `generateProductPlacement` call, plus whether a
request reached the provider at all. -/
structure ClientResult where
  outcome : Except String String
  requestMade : Bool

/-- The message thrown when the credential is absent, after the
catch-block wrapping of the service. -/
def configErrorMsg : String :=
  "Failed to generate image: API_KEY environment variable is not set."

/-- The message thrown on a text-only response (a refusal), after the
catch-block wrapping. -/
def refusalMsg (t : String) : String :=
  "Failed to generate image: Model returned a text response instead of an image: \"" ++ t
    ++ "\" This might be due to a safety policy or an inability to fulfill the request."

/-- The message thrown when the response has neither an image nor text,
after the catch-block wrapping. -/
def noOutputMsg : String :=
  "Failed to generate image: No image was generated in the response. The model may have refused the request."

/-- `generateProductPlacement` (service lines 42-99). `apiKey` is
`process.env.API_KEY`; `respParts` is `response.candidates[0].content.parts`
of the provider's reply, an external input. A missing (or empty, hence
falsy) key throws before the client is even constructed, so no request
is made. Every thrown error is re-wrapped by the catch block with the
`"Failed to generate image: "` prefix. -/
def generateProductPlacement (apiKey : Option String) (scenePart : Part)
    (productPart : Option Part) (prompt : String)
    (respParts : List RespPart) : ClientResult :=
  if truthyStr apiKey = false then
    { outcome := .error configErrorMsg, requestMade := false }
  else
    match findImagePart respParts with
    | some d =>
      { outcome := .ok ("data:" ++ d.mimeType ++ ";base64," ++ d.data),
        requestMade := true }
    | none =>
      match (responseText respParts).map jsTrim with
      | some t =>
        if t != "" then
          { outcome := .error (refusalMsg t), requestMade := true }
        else
          { outcome := .error noOutputMsg, requestMade := true }
      | none => { outcome := .error noOutputMsg, requestMade := true }

/-! ## Generation orchestration (`handleGenerate`) -/

/-- The default instruction used when the user's prompt is blank
(`src/App.tsx` line 112). -/
def defaultPrompt : String := "Place the product naturally in the scene."

/-- The inline error shown when no base image exists
(`src/App.tsx` line 104). -/
def missingInputMsg : String := "Please upload a scene photo first."

/-- The arguments `handleGenerate` hands to the generation client. -/
structure GenRequest where
  scenePart : Part
  productPart : Option Part
  prompt : String
deriving DecidableEq

/-- Result of `handleGenerate`: the new app state, and the request that
was handed to the generation client (`none` when it was never called). -/
structure GenerateResult where
  state : AppState
  request : Option GenRequest
deriving DecidableEq

/-- The part-assembly step of `handleGenerate` (`src/App.tsx` lines
114-132): an already-generated image (a truthy `imageUrl`) becomes the
base and the product is NOT passed again; otherwise the uploaded scene
is the base and the uploaded product, when present, rides along.
`Except.error` models the errors thrown inside the `try`. -/
def generateParts (currentState : HistoryState) : Except String (Part × Option Part) :=
  if truthyStr currentState.imageUrl then
    match dataUrlToGenerativePart (currentState.imageUrl.getD "") with
    | some p => .ok (p, none)
    | none => .error "Invalid data URL format"
  else
    match currentState.sceneImage with
    | some f => .ok (fileToGenerativePart f, currentState.productImage.map fileToGenerativePart)
    | none => .error "No base image available for generation."

/-- `handleGenerate` (`src/App.tsx` lines 100-156). The outcome of the
awaited `generateProductPlacement` call is an explicit input
(`genOutcome`); `Except.error` stands for any rejection of that promise.
Mobile-UI side effects (`setMobileOnboardingStep`, `setHighlightTools`,
`onSuccess`) are presentation-only and omitted. -/
def handleGenerate (s : AppState) (actionPrompt : String)
    (genOutcome : Except String String) : GenerateResult :=
  let currentState := currentStateOf s
  let hasBaseImage := truthyStr currentState.imageUrl || currentState.sceneImage.isSome
  if !hasBaseImage then
    { state := { s with error := some missingInputMsg }, request := none }
  else
    let s1 := { s with isLoading := true, error := none }
    let finalPrompt := if jsTrim actionPrompt = "" then defaultPrompt else actionPrompt
    match generateParts currentState with
    | .error msg =>
      { state := { s1 with isLoading := false, error := some msg }, request := none }
    | .ok (scenePart, productPart) =>
      let req : GenRequest := { scenePart := scenePart, productPart := productPart, prompt := finalPrompt }
      match genOutcome with
      | .ok resultUrl =>
        let s2 := updateStateAndHistory s1 { imageUrl? := some (some resultUrl) } finalPrompt
        { state := { s2 with prompt := "", isLoading := false }, request := some req }
      | .error msg =>
        { state := { s1 with isLoading := false, error := some msg }, request := some req }

/-! ## URL image import (`handleFetchFromUrl` in `LeftAside.tsx`) -/

/-- A fetched response body. `type` is the content type reported by the
proxy; `decodesAsImage` is the outcome of the `Image()` decode probe the
component runs on the blob (an external fact about the bytes); `data`
stands for the base64 encoding of the bytes, matching `File.data`. -/
structure Blob where
  type : String
  decodesAsImage : Bool
  data : String
deriving DecidableEq

/-- Outcome of the proxied `fetch`: either the promise rejected with a
transport error, or a response arrived with a status (`ok` is the JS
`response.ok`, i.e. status in 200-299) and a body. -/
inductive FetchResult where
  | transportError (msg : String)
  | httpResponse (ok : Bool) (status : Nat) (blob : Blob)

/-- The inline error shown when the fetched payload does not decode as
an image (`LeftAside.tsx` line 91). -/
def invalidImageMsg : String :=
  "The URL did not provide a valid image. Please use a direct link to an image file."

/-- The inline error shown on a non-2xx response
(`LeftAside.tsx` line 71). -/
def fetchStatusMsg (status : Nat) : String :=
  "Failed to fetch image. Status: " ++ toString status

/-- Filename derivation of `LeftAside.tsx` line 97:
`imageUrl.substring(imageUrl.lastIndexOf('/') + 1).split('?')[0]` with a
synthesized fallback when that is empty. -/
def deriveFileName (imageUrl : String) (extension : String) : String :=
  let afterSlash := (splitOnChar '/' imageUrl.data).getLastD imageUrl.data
  let beforeQuery := (splitOnChar '?' afterSlash).headD []
  if beforeQuery = [] then "product-from-url." ++ extension
  else String.mk beforeQuery

/-- `handleFetchFromUrl` (`LeftAside.tsx` lines 59-112). Returns the
`File` handed to the `onUrlUpload` callback (`none` when the callback
was not invoked) and the `fetchError` string set by the catch block
(`none` on success or on the blank-URL early return). The
`setIsFetching`/`setShowUrlInput` toggles are presentation-only. -/
def handleFetchFromUrl (imageUrl : String) (fetch : FetchResult) :
    Option File × Option String :=
  if imageUrl = "" then (none, none)
  else
    match fetch with
    | .transportError msg => (none, some msg)
    | .httpResponse ok status blob =>
      if !ok then (none, some (fetchStatusMsg status))
      else if !blob.decodesAsImage then (none, some invalidImageMsg)
      else
        let mimeType := if blob.type = "" then "image/jpeg" else blob.type
        let extension :=
          let e := (splitOnChar '/' mimeType.data).getD 1 []
          if e = [] then "jpg" else String.mk e
        let fileName := deriveFileName imageUrl extension
        (some { name := fileName, type := mimeType, data := blob.data }, none)

/-- The `action` label the `App` URL-upload handlers pass to
`updateStateWithNewImage` (`src/App.tsx` lines 81-87). -/
def urlUploadAction : ImageType → String
  | .scene => "Imported scene from URL"
  | .product => "Imported product from URL"

/-- A URL import end to end at the `App` level: the fetched file (when
one is produced) flows through `handleSceneUrlUpload` /
`handleProductUrlUpload` into `updateStateWithNewImage`; on failure the
app state is untouched and only the inline `fetchError` is set. -/
def fetchAndUpload (s : AppState) (imageUrl : String) (ty : ImageType)
    (fetch : FetchResult) : AppState × Option String :=
  match handleFetchFromUrl imageUrl fetch with
  | (some f, e) => (updateStateWithNewImage s f ty (urlUploadAction ty), e)
  | (none, e) => (s, e)

/-! ## Concrete sample inputs used by counterexamples and witnesses -/

/-- A sample scene file. -/
def sceneFile : File := { name := "scene.png", type := "image/png", data := "U0NFTkU=" }

/-- A sample product file. -/
def productFile : File := { name := "product.png", type := "image/png", data := "UFJPRA==" }

/-- The operation sequence append, undo, redo, run from the initial
single-element history. -/
def appendUndoRedo : List HistOp := [HistOp.append {} "edit", HistOp.undo, HistOp.redo]

/-- A three-entry history with the current index in the middle. -/
def threeEntryState : AppState :=
  { history := [emptySnapshot, emptySnapshot, emptySnapshot],
    currentHistoryIndex := 1, prompt := "", isLoading := false, error := none }

/-- A snapshot with both input images uploaded but nothing generated. -/
def uploadedSnapshot : HistoryState :=
  { imageUrl := none, prompt := "Uploaded product image",
    sceneImage := some sceneFile, productImage := some productFile }

/-- App state after the two uploads, before any generation. -/
def uploadedState : AppState :=
  { history := [uploadedSnapshot], currentHistoryIndex := 0,
    prompt := "place it", isLoading := false, error := none }

/-- A data URI of the shape the generation client returns. -/
def resultDataUrl : String := "data:image/png;base64,QUJD"

/-- A snapshot carrying a generated result image. -/
def generatedSnapshot : HistoryState :=
  { imageUrl := some resultDataUrl, prompt := "place it",
    sceneImage := some sceneFile, productImage := some productFile }

/-- App state after one successful generation, current index on the
generated snapshot. -/
def generatedState : AppState :=
  { history := [uploadedSnapshot, generatedSnapshot], currentHistoryIndex := 1,
    prompt := "", isLoading := false, error := none }

/-- A provider response part carrying an inline image payload. -/
def imageRespPart : RespPart :=
  { inlineData := some { data := "QUJD", mimeType := "image/png" } }

/-- A provider response part carrying refusal text. -/
def refusalRespPart : RespPart := { text := some "cannot do" }

/-- A provider response part whose text is only whitespace. -/
def blankTextRespPart : RespPart := { text := some " " }

/-- A fetched payload that is not a decodable image (say, an HTML
page). -/
def htmlBlob : Blob :=
  { type := "text/html", decodesAsImage := false, data := "PGh0bWw+" }

/-- A sample image URL used by the URL-import witnesses. -/
def sampleImageUrl : String := "https://example.com/pics/img.png"

/-!
# Theorems
-/

/-- At a valid index `i`, the truncate-and-push step (the JS
`history.slice(0, i + 1)` followed by a push) keeps exactly the first
`i + 1` entries and puts the new last index at `i + 1`. Shared helper
for the two history mutators. -/
theorem jsSliceTo_succ_push {α : Type} (l : List α) (i : Int) (x : α)
    (h0 : 0 ≤ i) (h1 : i < (l.length : Int)) :
    jsSliceTo l (i + 1) = l.take (i.toNat + 1) ∧
    ((jsSliceTo l (i + 1) ++ [x]).length : Int) - 1 = i + 1 := by
  have htn : (i + 1).toNat = i.toNat + 1 := by omega
  have hneg : ¬ (i + 1 < 0) := by omega
  unfold jsSliceTo
  rw [if_neg hneg, htn]
  refine ⟨rfl, ?_⟩
  simp only [List.length_append, List.length_take, List.length_cons, List.length_nil]
  omega

/-- C1: the claimed invariant "the current history index stays within
[0, length-1] under all append/undo/redo sequences from the initial
history" FAILS on the code: after one append, one undo and one redo the
index is -1 while the history still has two entries. The cause is
`handleRedo` decrementing the index (`src/App.tsx` line 181). -/
theorem redo_escapes_index_bounds :
    (runOps appendUndoRedo).currentHistoryIndex = -1 ∧
    (runOps appendUndoRedo).history.length = 2 := by
  constructor <;> rfl

/-- C2: the claim "redo moves the current index forward by one when
strictly below the last position" FAILS on the code: in a three-entry
history at index 1 (strictly below the last position 2), `handleRedo`
moves the index to 0, not 2 (`src/App.tsx` line 181 subtracts). -/
theorem redo_moves_index_backward :
    threeEntryState.currentHistoryIndex = 1 ∧
    threeEntryState.history.length = 3 ∧
    (handleRedo threeEntryState).currentHistoryIndex = 0 := by
  refine ⟨rfl, rfl, rfl⟩

/-- C3: at any valid current index `i`, `updateStateAndHistory` first
discards every entry at positions strictly after `i`, then pushes the
new snapshot (the patched current entry with `prompt := action`), and
sets the current index to the new last position `i + 1`; entries beyond
`i` are gone from the resulting history. -/
theorem append_truncates_then_pushes (s : AppState) (patch : HistoryStatePatch)
    (action : String) (h0 : 0 ≤ s.currentHistoryIndex)
    (h1 : s.currentHistoryIndex < (s.history.length : Int)) :
    (updateStateAndHistory s patch action).history
      = s.history.take (s.currentHistoryIndex.toNat + 1)
        ++ [{ applyPatch (currentStateOf s) patch with prompt := action }] ∧
    (updateStateAndHistory s patch action).currentHistoryIndex
      = s.currentHistoryIndex + 1 := by
  have h := jsSliceTo_succ_push s.history s.currentHistoryIndex
    ({ applyPatch (currentStateOf s) patch with prompt := action }) h0 h1
  unfold updateStateAndHistory
  exact ⟨by rw [h.1], h.2⟩

/-- C3 witness: the theorem applied to the three-entry history at
index 1 with an empty patch. -/
theorem append_truncates_then_pushes_witness :
    0 ≤ threeEntryState.currentHistoryIndex ∧
    threeEntryState.currentHistoryIndex < (threeEntryState.history.length : Int) ∧
    ((updateStateAndHistory threeEntryState {} "edit").history
      = threeEntryState.history.take (threeEntryState.currentHistoryIndex.toNat + 1)
        ++ [{ applyPatch (currentStateOf threeEntryState) {} with prompt := "edit" }] ∧
    (updateStateAndHistory threeEntryState {} "edit").currentHistoryIndex
      = threeEntryState.currentHistoryIndex + 1) :=
  ⟨by decide, by decide,
    append_truncates_then_pushes threeEntryState {} "edit" (by decide) (by decide)⟩

/-- C8: an image upload (all three acquisition paths funnel into
`updateStateWithNewImage`) taken while the current snapshot has neither
a scene nor a product image replaces the whole history by the single new
snapshot at index 0; when the current snapshot already has a scene or a
product image, the upload appends with truncation instead, exactly like
`updateStateAndHistory`. -/
theorem first_upload_replaces_history (s : AppState) (f : File)
    (ty : ImageType) (action : String) (h0 : 0 ≤ s.currentHistoryIndex)
    (h1 : s.currentHistoryIndex < (s.history.length : Int)) :
    ((currentStateOf s).sceneImage = none → (currentStateOf s).productImage = none →
      updateStateWithNewImage s f ty action
        = { s with history := [newImageSnapshot (currentStateOf s) f ty action],
                   currentHistoryIndex := 0 }) ∧
    ((currentStateOf s).sceneImage ≠ none ∨ (currentStateOf s).productImage ≠ none →
      (updateStateWithNewImage s f ty action).history
        = s.history.take (s.currentHistoryIndex.toNat + 1)
          ++ [newImageSnapshot (currentStateOf s) f ty action] ∧
      (updateStateWithNewImage s f ty action).currentHistoryIndex
        = s.currentHistoryIndex + 1) := by
  have h := jsSliceTo_succ_push s.history s.currentHistoryIndex
    (newImageSnapshot (currentStateOf s) f ty action) h0 h1
  constructor
  · intro hs hp
    simp [updateStateWithNewImage, hs, hp]
  · intro hor
    have hcond : ((currentStateOf s).sceneImage.isNone
        && (currentStateOf s).productImage.isNone) = false := by
      rcases hor with h2 | h2
      · have hn : (currentStateOf s).sceneImage.isNone = false := by
          simpa [Option.isSome_iff_ne_none] using h2
        simp [hn]
      · have hn : (currentStateOf s).productImage.isNone = false := by
          simpa [Option.isSome_iff_ne_none] using h2
        simp [hn]
    simp only [updateStateWithNewImage, hcond, Bool.false_eq_true, if_false]
    exact ⟨by rw [h.1], h.2⟩

/-- C8 witness: the theorem applied to the initial state (no scene, no
product: the history is replaced) — both hypotheses discharged at the
initial state. -/
theorem first_upload_replaces_history_witness :
    0 ≤ initialAppState.currentHistoryIndex ∧
    (currentStateOf initialAppState).sceneImage = none ∧
    updateStateWithNewImage initialAppState sceneFile ImageType.scene "Uploaded scene image"
      = { initialAppState with
            history := [newImageSnapshot (currentStateOf initialAppState) sceneFile
              ImageType.scene "Uploaded scene image"],
            currentHistoryIndex := 0 } :=
  ⟨by decide, by decide,
    (first_upload_replaces_history initialAppState sceneFile ImageType.scene
      "Uploaded scene image" (by decide) (by decide)).1 (by decide) (by decide)⟩

/-- A data URL that parses never is the empty string (it starts with
`data:`). Helper for the truthiness of a parsed `imageUrl`. -/
theorem dataUrl_parses_ne_empty {url : String} {p : Part}
    (h : dataUrlToGenerativePart url = some p) : url ≠ "" := by
  intro he
  have h0 : dataUrlToGenerativePart "" = none := by decide
  rw [he, h0] at h
  cases h

/-- C5: when the current snapshot has neither a result image nor a scene
image, `handleGenerate` sets the missing-input error and stops: the
generation client receives no request, and the history, the current
index — indeed the whole rest of the state — are unchanged. -/
theorem generate_without_base_fails (s : AppState) (actionPrompt : String)
    (genOutcome : Except String String)
    (h1 : (currentStateOf s).imageUrl = none)
    (h2 : (currentStateOf s).sceneImage = none) :
    (handleGenerate s actionPrompt genOutcome).request = none ∧
    (handleGenerate s actionPrompt genOutcome).state.history = s.history ∧
    (handleGenerate s actionPrompt genOutcome).state.currentHistoryIndex
      = s.currentHistoryIndex ∧
    (handleGenerate s actionPrompt genOutcome).state.error = some missingInputMsg := by
  have hgen : handleGenerate s actionPrompt genOutcome
      = { state := { s with error := some missingInputMsg }, request := none } := by
    simp [handleGenerate, h1, h2, truthyStr]
  rw [hgen]
  exact ⟨rfl, rfl, rfl, rfl⟩

/-- C5 witness: the theorem applied to the initial state. -/
theorem generate_without_base_fails_witness :
    (currentStateOf initialAppState).imageUrl = none ∧
    (currentStateOf initialAppState).sceneImage = none ∧
    ((handleGenerate initialAppState "place it" (Except.ok "u")).request = none ∧
     (handleGenerate initialAppState "place it" (Except.ok "u")).state.history
       = initialAppState.history ∧
     (handleGenerate initialAppState "place it" (Except.ok "u")).state.currentHistoryIndex
       = initialAppState.currentHistoryIndex ∧
     (handleGenerate initialAppState "place it" (Except.ok "u")).state.error
       = some missingInputMsg) :=
  ⟨by decide, by decide,
    generate_without_base_fails initialAppState "place it" (Except.ok "u")
      (by decide) (by decide)⟩

/-- C4: base-image selection of `handleGenerate`. When the current
snapshot carries a (parsable) result image, that data URI is the base
part of the request and the stored product image is NOT part of the
outbound request: the assembled parts are exactly the base and the
instruction text. When there is no result image but a scene image is
present, the scene file is the base and the pending product image, if
any, is sent alongside it. -/
theorem generate_base_selection (s : AppState) (actionPrompt : String)
    (genOutcome : Except String String) :
    (∀ url basePart, (currentStateOf s).imageUrl = some url →
      dataUrlToGenerativePart url = some basePart →
      (handleGenerate s actionPrompt genOutcome).request
        = some { scenePart := basePart, productPart := none,
                 prompt := if jsTrim actionPrompt = "" then defaultPrompt else actionPrompt } ∧
      buildParts basePart none (if jsTrim actionPrompt = "" then defaultPrompt else actionPrompt)
        = [basePart,
           Part.text (instructionText (if jsTrim actionPrompt = "" then defaultPrompt else actionPrompt))]) ∧
    (∀ f, (currentStateOf s).imageUrl = none → (currentStateOf s).sceneImage = some f →
      (handleGenerate s actionPrompt genOutcome).request
        = some { scenePart := fileToGenerativePart f,
                 productPart := (currentStateOf s).productImage.map fileToGenerativePart,
                 prompt := if jsTrim actionPrompt = "" then defaultPrompt else actionPrompt }) := by
  constructor
  · intro url basePart hurl hparse
    have hne : url ≠ "" := dataUrl_parses_ne_empty hparse
    have htr0 : truthyStr (some url) = true := by simp [truthyStr, hne]
    have htr : truthyStr (currentStateOf s).imageUrl = true := by rw [hurl, htr0]
    have hparts : generateParts (currentStateOf s) = .ok (basePart, none) := by
      simp [generateParts, hurl, htr0, hparse]
    refine ⟨?_, by simp [buildParts]⟩
    simp only [handleGenerate, htr, Bool.true_or, Bool.not_true, Bool.false_eq_true,
      if_false, hparts]
    cases genOutcome <;> rfl
  · intro f hurl hscene
    have htr : truthyStr (currentStateOf s).imageUrl = false := by
      rw [hurl]
      rfl
    have hparts : generateParts (currentStateOf s)
        = .ok (fileToGenerativePart f, (currentStateOf s).productImage.map fileToGenerativePart) := by
      simp [generateParts, htr, hscene]
    simp only [handleGenerate, htr, hscene, Option.isSome_some, Bool.false_or, Bool.not_true,
      Bool.false_eq_true, if_false, hparts]
    cases genOutcome <;> rfl

/-- C4 witness: the theorem applied once after a successful generation
(result image is the base, product withheld) and once before the first
generation (scene is the base, product rides along). -/
theorem generate_base_selection_witness :
    ((currentStateOf generatedState).imageUrl = some resultDataUrl ∧
     dataUrlToGenerativePart resultDataUrl
       = some (Part.inlineData "QUJD" "image/png") ∧
     (handleGenerate generatedState "make it sunset" (Except.ok "u")).request
       = some { scenePart := Part.inlineData "QUJD" "image/png", productPart := none,
                prompt := "make it sunset" } ∧
     buildParts (Part.inlineData "QUJD" "image/png") none "make it sunset"
       = [Part.inlineData "QUJD" "image/png",
          Part.text (instructionText "make it sunset")]) ∧
    ((currentStateOf uploadedState).imageUrl = none ∧
     (currentStateOf uploadedState).sceneImage = some sceneFile ∧
     (handleGenerate uploadedState "place it" (Except.ok "u")).request
       = some { scenePart := fileToGenerativePart sceneFile,
                productPart := some (fileToGenerativePart productFile),
                prompt := "place it" }) := by
  have h1 := (generate_base_selection generatedState "make it sunset" (Except.ok "u")).1
    resultDataUrl (Part.inlineData "QUJD" "image/png") (by decide) (by decide)
  have h2 := (generate_base_selection uploadedState "place it" (Except.ok "u")).2
    sceneFile (by decide) (by decide)
  refine ⟨⟨by decide, by decide, ?_, ?_⟩, by decide, by decide, ?_⟩
  · have := h1.1
    simpa using this
  · have := h1.2
    simpa using this
  · simpa using h2

/-- When `generateParts` succeeds, the base-image guard of
`handleGenerate` was satisfied. Helper for the inversion lemma. -/
theorem generateParts_ok_base (cs : HistoryState) (pr : Part × Option Part)
    (h : generateParts cs = .ok pr) :
    (truthyStr cs.imageUrl || cs.sceneImage.isSome) = true := by
  unfold generateParts at h
  by_cases htr : truthyStr cs.imageUrl = true
  · simp [htr]
  · rw [Bool.not_eq_true] at htr
    rw [htr] at h ⊢
    simp only [Bool.false_eq_true, if_false] at h
    cases hs : cs.sceneImage with
    | some f => simp [hs]
    | none => rw [hs] at h; cases h

/-- If `handleGenerate` recorded a request, then the parts assembly
succeeded with exactly the recorded base and product parts, and the
recorded prompt is the effective prompt. Helper inversion lemma. -/
theorem handleGenerate_request_inversion (s : AppState) (actionPrompt : String)
    (genOutcome : Except String String) (req : GenRequest)
    (hreq : (handleGenerate s actionPrompt genOutcome).request = some req) :
    generateParts (currentStateOf s) = .ok (req.scenePart, req.productPart) ∧
    req.prompt = (if jsTrim actionPrompt = "" then defaultPrompt else actionPrompt) := by
  simp only [handleGenerate] at hreq
  by_cases hbase : (truthyStr (currentStateOf s).imageUrl
      || (currentStateOf s).sceneImage.isSome) = true
  · rw [hbase] at hreq
    simp only [Bool.not_true, Bool.false_eq_true, if_false] at hreq
    cases hp : generateParts (currentStateOf s) with
    | error m =>
      rw [hp] at hreq
      simp at hreq
    | ok pr =>
      obtain ⟨sp, pp⟩ := pr
      rw [hp] at hreq
      cases genOutcome with
      | ok u =>
        simp only [Option.some.injEq] at hreq
        rw [← hreq]
        exact ⟨rfl, rfl⟩
      | error m =>
        simp only [Option.some.injEq] at hreq
        rw [← hreq]
        exact ⟨rfl, rfl⟩
  · rw [Bool.not_eq_true] at hbase
    rw [hbase] at hreq
    simp at hreq

/-- C9: whenever `handleGenerate` sends a request, the prompt it carries
is the user's text, except that a prompt that is empty or all whitespace
is replaced by the fixed default "Place the product naturally in the
scene."; on success that same effective prompt is recorded as the new
snapshot's label. -/
theorem generate_effective_prompt (s : AppState) (actionPrompt : String)
    (genOutcome : Except String String) (req : GenRequest)
    (hreq : (handleGenerate s actionPrompt genOutcome).request = some req) :
    req.prompt = (if jsTrim actionPrompt = "" then defaultPrompt else actionPrompt) ∧
    ∀ u, genOutcome = Except.ok u →
      ((handleGenerate s actionPrompt genOutcome).state.history.getLast?).map
          HistoryState.prompt
        = some (if jsTrim actionPrompt = "" then defaultPrompt else actionPrompt) := by
  obtain ⟨hp, hpr⟩ := handleGenerate_request_inversion s actionPrompt genOutcome req hreq
  have hbase := generateParts_ok_base (currentStateOf s) _ hp
  refine ⟨hpr, ?_⟩
  intro u hu
  subst hu
  simp only [handleGenerate, hbase, Bool.not_true, Bool.false_eq_true, if_false, hp]
  simp [updateStateAndHistory]

/-- C9 witness: the theorem applied to an all-whitespace prompt over the
uploaded state; the effective prompt is the default instruction, both in
the request and as the new snapshot's label. -/
theorem generate_effective_prompt_witness :
    (handleGenerate uploadedState "   " (Except.ok resultDataUrl)).request
      = some { scenePart := fileToGenerativePart sceneFile,
               productPart := some (fileToGenerativePart productFile),
               prompt := defaultPrompt } ∧
    GenRequest.prompt
        { scenePart := fileToGenerativePart sceneFile,
          productPart := some (fileToGenerativePart productFile),
          prompt := defaultPrompt }
      = (if jsTrim "   " = "" then defaultPrompt else "   ") ∧
    ((handleGenerate uploadedState "   " (Except.ok resultDataUrl)).state.history.getLast?).map
        HistoryState.prompt
      = some (if jsTrim "   " = "" then defaultPrompt else "   ") := by
  have h := generate_effective_prompt uploadedState "   " (Except.ok resultDataUrl)
    { scenePart := fileToGenerativePart sceneFile,
      productPart := some (fileToGenerativePart productFile),
      prompt := defaultPrompt } (by decide)
  exact ⟨by decide, h.1, h.2 resultDataUrl rfl⟩

/-- C10: when the generation client was invoked and threw (for any
reason), `handleGenerate` appends nothing: the history and current index
are unchanged, the free-text input is unchanged, and the failure only
stores the error string and clears the loading flag. -/
theorem generate_failure_preserves_history (s : AppState)
    (actionPrompt msg : String) (req : GenRequest)
    (hreq : (handleGenerate s actionPrompt (Except.error msg)).request = some req) :
    (handleGenerate s actionPrompt (Except.error msg)).state.history = s.history ∧
    (handleGenerate s actionPrompt (Except.error msg)).state.currentHistoryIndex
      = s.currentHistoryIndex ∧
    (handleGenerate s actionPrompt (Except.error msg)).state.prompt = s.prompt ∧
    (handleGenerate s actionPrompt (Except.error msg)).state.error = some msg ∧
    (handleGenerate s actionPrompt (Except.error msg)).state.isLoading = false := by
  obtain ⟨hp, hpr⟩ := handleGenerate_request_inversion s actionPrompt
    (Except.error msg) req hreq
  have hbase := generateParts_ok_base (currentStateOf s) _ hp
  simp only [handleGenerate, hbase, Bool.not_true, Bool.false_eq_true, if_false, hp]
  simp

/-- C10 witness: the theorem applied to a failing generation over the
uploaded state. -/
theorem generate_failure_preserves_history_witness :
    (handleGenerate uploadedState "place it" (Except.error "boom")).request
      = some { scenePart := fileToGenerativePart sceneFile,
               productPart := some (fileToGenerativePart productFile),
               prompt := "place it" } ∧
    ((handleGenerate uploadedState "place it" (Except.error "boom")).state.history
        = uploadedState.history ∧
     (handleGenerate uploadedState "place it" (Except.error "boom")).state.currentHistoryIndex
        = uploadedState.currentHistoryIndex ∧
     (handleGenerate uploadedState "place it" (Except.error "boom")).state.prompt
        = uploadedState.prompt ∧
     (handleGenerate uploadedState "place it" (Except.error "boom")).state.error
        = some "boom" ∧
     (handleGenerate uploadedState "place it" (Except.error "boom")).state.isLoading
        = false) :=
  ⟨by decide,
    generate_failure_preserves_history uploadedState "place it" "boom"
      { scenePart := fileToGenerativePart sceneFile,
        productPart := some (fileToGenerativePart productFile),
        prompt := "place it" } (by decide)⟩

/-- C6 counterexample: a response with no image part but WITH a text
part whose text is all whitespace. The claim says this fails with the
error carrying the model's text (the refusal error); the code trims the
text first, finds it blank, and fails with the no-output error instead,
which does not carry the text. -/
theorem client_blank_text_counterexample :
    blankTextRespPart.text ≠ none ∧
    findImagePart [blankTextRespPart] = none ∧
    (generateProductPlacement (some "key") (Part.text "b") none "p"
        [blankTextRespPart]).outcome = Except.error noOutputMsg ∧
    noOutputMsg ≠ refusalMsg " " := by
  exact ⟨by decide, rfl, rfl, by decide⟩

/-- C6 (amended): with a credential present, the client returns the
first response part carrying an inline payload with an `image/` MIME
type as a data URI; when no such part exists but the response text is
nonblank after trimming, it fails with the refusal error carrying the
trimmed text; when there is neither an image part nor nonblank text, it
fails with the no-output error; and with a missing (or empty, hence
falsy) credential it fails with the configuration error without any
request being made. -/
theorem client_decode_taxonomy (apiKey : String) (scenePart : Part)
    (productPart : Option Part) (prompt : String) (respParts : List RespPart) :
    (∀ d, apiKey ≠ "" → findImagePart respParts = some d →
      (generateProductPlacement (some apiKey) scenePart productPart prompt respParts).outcome
        = Except.ok ("data:" ++ d.mimeType ++ ";base64," ++ d.data)) ∧
    (∀ t, apiKey ≠ "" → findImagePart respParts = none →
      (responseText respParts).map jsTrim = some t → t ≠ "" →
      (generateProductPlacement (some apiKey) scenePart productPart prompt respParts).outcome
        = Except.error (refusalMsg t)) ∧
    (apiKey ≠ "" → findImagePart respParts = none →
      ((responseText respParts).map jsTrim = none ∨
        (responseText respParts).map jsTrim = some "") →
      (generateProductPlacement (some apiKey) scenePart productPart prompt respParts).outcome
        = Except.error noOutputMsg) ∧
    (∀ key, truthyStr key = false →
      generateProductPlacement key scenePart productPart prompt respParts
        = { outcome := Except.error configErrorMsg, requestMade := false }) := by
  refine ⟨?_, ?_, ?_, ?_⟩
  · intro d hk hfind
    have htr : truthyStr (some apiKey) = true := by simp [truthyStr, hk]
    simp [generateProductPlacement, htr, hfind]
  · intro t hk hfind hrt ht
    have htr : truthyStr (some apiKey) = true := by simp [truthyStr, hk]
    simp [generateProductPlacement, htr, hfind, hrt, ht]
  · intro hk hfind hor
    have htr : truthyStr (some apiKey) = true := by simp [truthyStr, hk]
    rcases hor with hrt | hrt <;> simp [generateProductPlacement, htr, hfind, hrt]
  · intro key hkey
    simp [generateProductPlacement, hkey]

/-- C6 witness: the amended theorem applied to an image response, a
refusal response, an empty response, and a missing credential. -/
theorem client_decode_taxonomy_witness :
    ((generateProductPlacement (some "key") (Part.text "b") none "p"
        [imageRespPart]).outcome
      = Except.ok ("data:" ++ "image/png" ++ ";base64," ++ "QUJD")) ∧
    ((generateProductPlacement (some "key") (Part.text "b") none "p"
        [refusalRespPart]).outcome
      = Except.error (refusalMsg "cannot do")) ∧
    ((generateProductPlacement (some "key") (Part.text "b") none "p"
        []).outcome
      = Except.error noOutputMsg) ∧
    (generateProductPlacement none (Part.text "b") none "p" []
      = { outcome := Except.error configErrorMsg, requestMade := false }) := by
  have h := client_decode_taxonomy "key" (Part.text "b") none "p"
  exact ⟨(h [imageRespPart]).1 { data := "QUJD", mimeType := "image/png" }
      (by decide) (by decide),
    (h [refusalRespPart]).2.1 "cannot do" (by decide) (by decide) (by decide) (by decide),
    (h []).2.2.1 (by decide) (by decide) (Or.inl (by decide)),
    (h []).2.2.2 none (by decide)⟩

/-- C7: a URL import fails without touching anything when the payload is
not an image, when the response status is not 2xx, and when the fetch
itself rejects: the invalid-image / fetch-status / transport error is
stored as the inline fetch error, the upload callback receives no file,
and the app state — image handles and history included — is unchanged. -/
theorem url_import_failure_preserves_state (s : AppState) (imageUrl : String)
    (ty : ImageType) (hurl : imageUrl ≠ "") :
    (∀ st blob, blob.decodesAsImage = false →
      handleFetchFromUrl imageUrl (FetchResult.httpResponse true st blob)
        = (none, some invalidImageMsg) ∧
      fetchAndUpload s imageUrl ty (FetchResult.httpResponse true st blob)
        = (s, some invalidImageMsg)) ∧
    (∀ st blob,
      handleFetchFromUrl imageUrl (FetchResult.httpResponse false st blob)
        = (none, some (fetchStatusMsg st)) ∧
      fetchAndUpload s imageUrl ty (FetchResult.httpResponse false st blob)
        = (s, some (fetchStatusMsg st))) ∧
    (∀ msg,
      handleFetchFromUrl imageUrl (FetchResult.transportError msg)
        = (none, some msg) ∧
      fetchAndUpload s imageUrl ty (FetchResult.transportError msg)
        = (s, some msg)) := by
  refine ⟨?_, ?_, ?_⟩
  · intro st blob hdec
    have h1 : handleFetchFromUrl imageUrl (FetchResult.httpResponse true st blob)
        = (none, some invalidImageMsg) := by
      simp [handleFetchFromUrl, hurl, hdec]
    exact ⟨h1, by simp [fetchAndUpload, h1]⟩
  · intro st blob
    have h1 : handleFetchFromUrl imageUrl (FetchResult.httpResponse false st blob)
        = (none, some (fetchStatusMsg st)) := by
      simp [handleFetchFromUrl, hurl]
    exact ⟨h1, by simp [fetchAndUpload, h1]⟩
  · intro msg
    have h1 : handleFetchFromUrl imageUrl (FetchResult.transportError msg)
        = (none, some msg) := by
      simp [handleFetchFromUrl, hurl]
    exact ⟨h1, by simp [fetchAndUpload, h1]⟩

/-- C7 witness: the theorem applied at a concrete URL over the uploaded
state, with an HTML payload, a 404 response, and a transport failure. -/
theorem url_import_failure_preserves_state_witness :
    (handleFetchFromUrl sampleImageUrl (FetchResult.httpResponse true 200 htmlBlob)
      = (none, some invalidImageMsg) ∧
     fetchAndUpload uploadedState sampleImageUrl ImageType.scene
        (FetchResult.httpResponse true 200 htmlBlob)
      = (uploadedState, some invalidImageMsg)) ∧
    (handleFetchFromUrl sampleImageUrl (FetchResult.httpResponse false 404 htmlBlob)
      = (none, some (fetchStatusMsg 404)) ∧
     fetchAndUpload uploadedState sampleImageUrl ImageType.scene
        (FetchResult.httpResponse false 404 htmlBlob)
      = (uploadedState, some (fetchStatusMsg 404))) ∧
    (handleFetchFromUrl sampleImageUrl (FetchResult.transportError "Failed to fetch")
      = (none, some "Failed to fetch") ∧
     fetchAndUpload uploadedState sampleImageUrl ImageType.scene
        (FetchResult.transportError "Failed to fetch")
      = (uploadedState, some "Failed to fetch")) := by
  have h := url_import_failure_preserves_state uploadedState sampleImageUrl
    ImageType.scene (by decide)
  exact ⟨h.1 200 htmlBlob (by decide), h.2.1 404 htmlBlob, h.2.2 "Failed to fetch"⟩

end ShopSense
